import Mathlib

/-!
Verification of the Campus Social API backend (src/main.py, src/schemas.py).

The development shallowly embeds the Python code: MongoDB documents become
association lists from field names to values, the pydantic entity schemas
become structures with explicit validators, the FastAPI handlers become pure
functions threading an explicit store state, and the document access layer
(database.py, whose source is not part of the repository snapshot) is
modelled from the specification's contract for it.
-/

namespace CampusSocial

/-- A value stored in a document field: a JSON string, a JSON null, or a
MongoDB ObjectId (carrying its hex-string rendering, which is what
`str(_id)` produces in Python). These are the only value shapes the code
under verification stores or inspects. -/
inductive Value where
  | str : String → Value
  | null : Value
  | objectId : String → Value
deriving DecidableEq, Repr

/-- A MongoDB document / Python dict: an insertion-ordered association list
of field names to values, mirroring Python dict semantics (unique keys). -/
abbrev Doc := List (String × Value)

/-- Python `d.get(k)` / `d[k]`: first binding of the key, if any. -/
def lookupF (k : String) : Doc → Option Value
  | [] => none
  | (k', v) :: t => if k = k' then some v else lookupF k t

/-- Python `k in d`. -/
def hasKey (k : String) (d : Doc) : Bool := (lookupF k d).isSome

/-- Python `d.pop(k, None)`'s removal effect: drop the binding of `k`
(dicts have unique keys, so removing every binding models removal of
the one binding). -/
def eraseKey (k : String) : Doc → Doc
  | [] => []
  | (k', v') :: t => if k' = k then eraseKey k t else (k', v') :: eraseKey k t

/-- Python `d[k] = v`: overwrite in place when the key exists, else append
at the end, preserving dict insertion order. -/
def setKey (k : String) (v : Value) : Doc → Doc
  | [] => [(k, v)]
  | (k', v') :: t => if k' = k then (k, v) :: t else (k', v') :: setKey k v t

/-- main.py `to_public` (lines 24-33): return falsy (empty) docs as is;
otherwise copy, pop `_id`, add `id = str(_id)` only when the popped value
is an ObjectId, and pop `password_hash` when present. -/
def to_public (doc : Doc) : Doc :=
  if doc = [] then doc
  else
    let popped := lookupF "_id" doc
    let d1 := eraseKey "_id" doc
    let d2 := match popped with
      | some (Value.objectId s) => setKey "id" (Value.str s) d1
      | _ => d1
    if hasKey "password_hash" d2 then eraseKey "password_hash" d2 else d2

/- Association-list plumbing lemmas. -/

theorem lookupF_eraseKey_self (k : String) (d : Doc) :
    lookupF k (eraseKey k d) = none := by
  induction d with
  | nil => rfl
  | cons p t ih =>
    unfold eraseKey
    by_cases hp : p.1 = k
    · simpa [hp] using ih
    · have hk : k ≠ p.1 := fun h => hp h.symm
      simp [hp, lookupF, hk, ih]

theorem lookupF_eraseKey_ne (k k' : String) (d : Doc) (hne : k ≠ k') :
    lookupF k (eraseKey k' d) = lookupF k d := by
  induction d with
  | nil => rfl
  | cons p t ih =>
    unfold eraseKey
    by_cases hp : p.1 = k'
    · have hk : k ≠ p.1 := fun h => hne (h.trans hp)
      simp [hp, lookupF, hk, hne, ih]
    · by_cases hk : k = p.1
      · simp [hp, lookupF, hk]
      · simp [hp, lookupF, hk, ih]

theorem eraseKey_of_not_hasKey (k : String) (d : Doc) (h : lookupF k d = none) :
    eraseKey k d = d := by
  induction d with
  | nil => rfl
  | cons p t ih =>
    by_cases hk : k = p.1
    · simp [lookupF, hk] at h
    · rw [lookupF, if_neg hk] at h
      have hp : ¬ p.1 = k := fun h' => hk h'.symm
      unfold eraseKey
      simp [hp, ih h]

theorem lookupF_setKey_ne (k k' : String) (v : Value) (d : Doc) (hne : k ≠ k') :
    lookupF k (setKey k' v d) = lookupF k d := by
  induction d with
  | nil => simp [setKey, lookupF, hne]
  | cons p t ih =>
    unfold setKey
    by_cases hp : p.1 = k'
    · have hk : k ≠ p.1 := fun h => hne (h.trans hp)
      simp [hp, lookupF, hk, hne]
    · by_cases hk : k = p.1
      · simp [hp, lookupF, hk]
      · simp [hp, lookupF, hk, ih]

theorem lookupF_setKey_self (k : String) (v : Value) (d : Doc) :
    lookupF k (setKey k v d) = some v := by
  induction d with
  | nil => simp [setKey, lookupF]
  | cons p t ih =>
    unfold setKey
    by_cases hp : p.1 = k
    · simp [hp, lookupF]
    · have hk : k ≠ p.1 := fun h => hp h.symm
      simp [hp, lookupF, hk, ih]

/-- The final `password_hash` strip of `to_public`, as its own lemma target:
stripping makes `password_hash` unretrievable. -/
theorem lookupF_strip_self (d : Doc) :
    lookupF "password_hash"
      (if hasKey "password_hash" d then eraseKey "password_hash" d else d) = none := by
  by_cases h : hasKey "password_hash" d
  · rw [if_pos h]
    exact lookupF_eraseKey_self _ _
  · rw [if_neg h]
    unfold hasKey at h
    exact Option.not_isSome_iff_eq_none.mp (by simpa using h)

theorem lookupF_strip_ne (k : String) (d : Doc) (hne : k ≠ "password_hash") :
    lookupF k
      (if hasKey "password_hash" d then eraseKey "password_hash" d else d) =
    lookupF k d := by
  by_cases h : hasKey "password_hash" d
  · rw [if_pos h]
    exact lookupF_eraseKey_ne _ _ _ hne
  · rw [if_neg h]

/-- After `to_public`, the `_id` key is gone and `password_hash` is gone. -/
theorem to_public_no_internal (d : Doc) :
    lookupF "_id" (to_public d) = none ∧
    lookupF "password_hash" (to_public d) = none := by
  unfold to_public
  by_cases hd : d = []
  · simp [hd, lookupF]
  · simp only [hd, if_neg, not_false_iff]
    have h1 : lookupF "_id" (eraseKey "_id" d) = none := lookupF_eraseKey_self _ _
    rcases hpop : lookupF "_id" d with _ | v
    · exact ⟨by rw [lookupF_strip_ne _ _ (by decide)]; exact h1, lookupF_strip_self _⟩
    · cases v with
      | objectId s =>
        refine ⟨?_, lookupF_strip_self _⟩
        rw [lookupF_strip_ne _ _ (by decide), lookupF_setKey_ne _ _ _ _ (by decide)]
        exact h1
      | str s =>
        exact ⟨by rw [lookupF_strip_ne _ _ (by decide)]; exact h1, lookupF_strip_self _⟩
      | null =>
        exact ⟨by rw [lookupF_strip_ne _ _ (by decide)]; exact h1, lookupF_strip_self _⟩

/-- When the record's `_id` is an ObjectId, `to_public` is literally the
`password_hash` strip applied to `setKey "id" (str s)` of the `_id`-erased
record. -/
theorem to_public_shape_objectId (d : Doc) (s : String)
    (h : lookupF "_id" d = some (Value.objectId s)) :
    to_public d =
      (if hasKey "password_hash" (setKey "id" (Value.str s) (eraseKey "_id" d))
       then eraseKey "password_hash" (setKey "id" (Value.str s) (eraseKey "_id" d))
       else setKey "id" (Value.str s) (eraseKey "_id" d)) := by
  have hd : ¬ d = [] := by
    intro h0
    rw [h0] at h
    exact Option.noConfusion h
  simp only [to_public, hd, if_neg, not_false_iff, h]

/-- When the record's `_id` is absent or not an ObjectId, `to_public` is the
`password_hash` strip applied to the `_id`-erased record. -/
theorem to_public_shape_other (d : Doc)
    (hd : ¬ d = [])
    (h : ∀ s, lookupF "_id" d ≠ some (Value.objectId s)) :
    to_public d =
      (if hasKey "password_hash" (eraseKey "_id" d)
       then eraseKey "password_hash" (eraseKey "_id" d)
       else eraseKey "_id" d) := by
  rcases hpop : lookupF "_id" d with _ | v
  · simp only [to_public, hd, if_neg, not_false_iff, hpop]
  · cases v with
    | objectId s => exact absurd hpop (h s)
    | str s => simp only [to_public, hd, if_neg, not_false_iff, hpop]
    | null => simp only [to_public, hd, if_neg, not_false_iff, hpop]

/-- C6: the Public-View Sanitizer is idempotent; as a pure function of the
record it also has no effect on the input or any other state. -/
theorem to_public_idempotent (d : Doc) :
    to_public (to_public d) = to_public d := by
  obtain ⟨hid, hpw⟩ := to_public_no_internal d
  by_cases h0 : to_public d = []
  · rw [h0]
    rfl
  · rw [to_public_shape_other (to_public d) h0
      (fun s hs => by rw [hid] at hs; exact Option.noConfusion hs)]
    rw [eraseKey_of_not_hasKey _ _ hid]
    rw [if_neg (by unfold hasKey; rw [hpw]; exact Bool.false_ne_true)]

/-- C2: on a record whose storage identifier `_id` is an ObjectId, `to_public`
renames `_id` to a string-form `id` field, removes `password_hash`
unconditionally, and leaves every other field unchanged. -/
theorem to_public_sanitizes (d : Doc) (s : String)
    (h : lookupF "_id" d = some (Value.objectId s)) :
    lookupF "id" (to_public d) = some (Value.str s) ∧
    lookupF "password_hash" (to_public d) = none ∧
    lookupF "_id" (to_public d) = none ∧
    ∀ k, k ≠ "_id" → k ≠ "id" → k ≠ "password_hash" →
      lookupF k (to_public d) = lookupF k d := by
  rw [to_public_shape_objectId d s h]
  refine ⟨?_, lookupF_strip_self _, ?_, ?_⟩
  · rw [lookupF_strip_ne _ _ (by decide)]
    exact lookupF_setKey_self _ _ _
  · rw [lookupF_strip_ne _ _ (by decide), lookupF_setKey_ne _ _ _ _ (by decide)]
    exact lookupF_eraseKey_self _ _
  · intro k h1 h2 h3
    rw [lookupF_strip_ne _ _ h3, lookupF_setKey_ne _ _ _ _ h2]
    exact lookupF_eraseKey_ne _ _ _ h1

/-- C2 witness: the sanitizer contract evaluated on a concrete stored user
record with an ObjectId identifier, a name, and a password hash. -/
theorem to_public_sanitizes_witness :
    lookupF "_id"
      [("_id", Value.objectId "abc"), ("name", Value.str "A"),
       ("password_hash", Value.str "h")] = some (Value.objectId "abc") ∧
    lookupF "id" (to_public
      [("_id", Value.objectId "abc"), ("name", Value.str "A"),
       ("password_hash", Value.str "h")]) = some (Value.str "abc") ∧
    lookupF "password_hash" (to_public
      [("_id", Value.objectId "abc"), ("name", Value.str "A"),
       ("password_hash", Value.str "h")]) = none ∧
    lookupF "name" (to_public
      [("_id", Value.objectId "abc"), ("name", Value.str "A"),
       ("password_hash", Value.str "h")]) =
      lookupF "name"
      [("_id", Value.objectId "abc"), ("name", Value.str "A"),
       ("password_hash", Value.str "h")] := by
  have h := to_public_sanitizes
    [("_id", Value.objectId "abc"), ("name", Value.str "A"),
     ("password_hash", Value.str "h")] "abc" rfl
  exact ⟨rfl, h.1, h.2.1, h.2.2.2 "name" (by decide) (by decide) (by decide)⟩

/-- C10 counterexample: on the non-empty record with a string (non-ObjectId)
`_id` and a pre-existing `id` field, `to_public` does produce an `id` field
in the output, refuting the claim that no `id` field at all is produced. -/
theorem to_public_keeps_preexisting_id :
    lookupF "_id" [("_id", Value.str "x"), ("id", Value.str "y")] =
      some (Value.str "x") ∧
    to_public [("_id", Value.str "x"), ("id", Value.str "y")] =
      [("id", Value.str "y")] ∧
    lookupF "id" (to_public [("_id", Value.str "x"), ("id", Value.str "y")]) =
      some (Value.str "y") := by
  exact ⟨rfl, rfl, rfl⟩

/-- C10 (amended): on a record whose `_id` is present but not an ObjectId,
`to_public` removes `_id` without converting it, and adds no `id` field of
its own: the output's `id` binding is exactly the input's pre-existing `id`
binding (so when the input had no `id` field, the output has none, and the
identifier is silently dropped). -/
theorem to_public_drops_non_objectId (d : Doc)
    (hpresent : hasKey "_id" d = true)
    (hnotoid : ∀ s, lookupF "_id" d ≠ some (Value.objectId s)) :
    lookupF "_id" (to_public d) = none ∧
    lookupF "id" (to_public d) = lookupF "id" d := by
  have hd : ¬ d = [] := by
    intro h0
    rw [h0] at hpresent
    exact Bool.noConfusion hpresent
  refine ⟨(to_public_no_internal d).1, ?_⟩
  rw [to_public_shape_other d hd hnotoid]
  rw [lookupF_strip_ne _ _ (by decide)]
  exact lookupF_eraseKey_ne _ _ _ (by decide)

/-- C10 amended-claim witness: a concrete record with a string `_id` and no
`id` field loses its identifier entirely under `to_public`. -/
theorem to_public_drops_non_objectId_witness :
    hasKey "_id" [("_id", Value.str "x"), ("name", Value.str "n")] = true ∧
    lookupF "_id" (to_public [("_id", Value.str "x"), ("name", Value.str "n")]) = none ∧
    lookupF "id" (to_public [("_id", Value.str "x"), ("name", Value.str "n")]) =
      lookupF "id" [("_id", Value.str "x"), ("name", Value.str "n")] := by
  have h := to_public_drops_non_objectId
    [("_id", Value.str "x"), ("name", Value.str "n")] rfl
    (fun s hs => Value.noConfusion (Option.some.inj hs))
  exact ⟨rfl, h.1, h.2⟩

/-- schemas.py User.role: the enumerated roles in
`Literal["user", "moderator", "admin"]`. -/
inductive Role where
  | user
  | moderator
  | admin
deriving DecidableEq, Repr

/-- Validation of a role string against the `Literal` enumeration. -/
def Role.ofString? (r : String) : Option Role :=
  if r = "user" then some Role.user
  else if r = "moderator" then some Role.moderator
  else if r = "admin" then some Role.admin
  else none

/-- The string form of a role, as serialized to storage. -/
def Role.asString : Role → String
  | Role.user => "user"
  | Role.moderator => "moderator"
  | Role.admin => "admin"

/-- Untrusted input to an entity constructor: a JSON object restricted to
string-valued fields, the only value shapes the verified claims concern. -/
abbrev Fields := List (String × String)

/-- First binding of a key in untrusted input. -/
def lookupS (k : String) : Fields → Option String
  | [] => none
  | (k', v) :: t => if k = k' then some v else lookupS k t

/-- A pydantic validation failure, carrying the offending field. -/
structure ValidationError where
  loc : String
deriving DecidableEq, Repr

/-- schemas.py User (lines 12-16): name and email required, avatar_url
optional (default None), role constrained to the `Literal` enumeration with
default "user". -/
structure User where
  name : String
  email : String
  avatar_url : Option String
  role : Role
deriving DecidableEq, Repr

/-- pydantic construction of a User from untrusted input. Fields not
declared on the model (pydantic's default `extra` policy is ignore) are
silently dropped: only the four declared fields are read. -/
def User.validate (inp : Fields) : Except ValidationError User :=
  match lookupS "name" inp with
  | none => Except.error ⟨"name"⟩
  | some nm =>
    match lookupS "email" inp with
    | none => Except.error ⟨"email"⟩
    | some em =>
      let avatar := lookupS "avatar_url" inp
      match lookupS "role" inp with
      | none => Except.ok ⟨nm, em, avatar, Role.user⟩
      | some r =>
        match Role.ofString? r with
        | none => Except.error ⟨"role"⟩
        | some rl => Except.ok ⟨nm, em, avatar, rl⟩

/-- schemas.py Group (lines 18-21). -/
structure Group where
  name : String
  description : Option String
  created_by : String
deriving DecidableEq, Repr

/-- pydantic construction of a Group from untrusted input. -/
def Group.validate (inp : Fields) : Except ValidationError Group :=
  match lookupS "name" inp with
  | none => Except.error ⟨"name"⟩
  | some nm =>
    match lookupS "created_by" inp with
    | none => Except.error ⟨"created_by"⟩
    | some cb => Except.ok ⟨nm, lookupS "description" inp, cb⟩

/-- schemas.py Post (lines 23-26). -/
structure Post where
  group_id : String
  author_id : String
  content : String
deriving DecidableEq, Repr

/-- pydantic construction of a Post from untrusted input. -/
def Post.validate (inp : Fields) : Except ValidationError Post :=
  match lookupS "group_id" inp with
  | none => Except.error ⟨"group_id"⟩
  | some g =>
    match lookupS "author_id" inp with
    | none => Except.error ⟨"author_id"⟩
    | some a =>
      match lookupS "content" inp with
      | none => Except.error ⟨"content"⟩
      | some c => Except.ok ⟨g, a, c⟩

/-- schemas.py Comment (lines 28-31). -/
structure Comment where
  post_id : String
  author_id : String
  content : String
deriving DecidableEq, Repr

/-- pydantic construction of a Comment from untrusted input. -/
def Comment.validate (inp : Fields) : Except ValidationError Comment :=
  match lookupS "post_id" inp with
  | none => Except.error ⟨"post_id"⟩
  | some p =>
    match lookupS "author_id" inp with
    | none => Except.error ⟨"author_id"⟩
    | some a =>
      match lookupS "content" inp with
      | none => Except.error ⟨"content"⟩
      | some c => Except.ok ⟨p, a, c⟩

/-- schemas.py Like (lines 33-35). -/
structure Like where
  post_id : String
  user_id : String
deriving DecidableEq, Repr

/-- pydantic construction of a Like from untrusted input. -/
def Like.validate (inp : Fields) : Except ValidationError Like :=
  match lookupS "post_id" inp with
  | none => Except.error ⟨"post_id"⟩
  | some p =>
    match lookupS "user_id" inp with
    | none => Except.error ⟨"user_id"⟩
    | some u => Except.ok ⟨p, u⟩

theorem Role.ofString_isSome_iff (r : String) :
    (Role.ofString? r).isSome = true ↔
      (r = "user" ∨ r = "moderator" ∨ r = "admin") := by
  unfold Role.ofString?
  split_ifs with h1 h2 h3
  · simp [h1]
  · simp [h2]
  · simp [h3]
  · simp [h1, h2, h3]

/-- C7: for every entity type, construction from untrusted input succeeds
exactly when every required field is present and the constrained role field
(User only) is absent or within the enumerated set; otherwise it fails with
a ValidationError. -/
theorem entity_validation (inp : Fields) :
    ((User.validate inp).isOk = true ↔
      (lookupS "name" inp).isSome = true ∧ (lookupS "email" inp).isSome = true ∧
      (∀ r, lookupS "role" inp = some r →
        (r = "user" ∨ r = "moderator" ∨ r = "admin"))) ∧
    ((Group.validate inp).isOk = true ↔
      (lookupS "name" inp).isSome = true ∧
      (lookupS "created_by" inp).isSome = true) ∧
    ((Post.validate inp).isOk = true ↔
      (lookupS "group_id" inp).isSome = true ∧
      (lookupS "author_id" inp).isSome = true ∧
      (lookupS "content" inp).isSome = true) ∧
    ((Comment.validate inp).isOk = true ↔
      (lookupS "post_id" inp).isSome = true ∧
      (lookupS "author_id" inp).isSome = true ∧
      (lookupS "content" inp).isSome = true) ∧
    ((Like.validate inp).isOk = true ↔
      (lookupS "post_id" inp).isSome = true ∧
      (lookupS "user_id" inp).isSome = true) := by
  refine ⟨?_, ?_, ?_, ?_, ?_⟩
  · rcases hn : lookupS "name" inp with _ | nm
    · simp [User.validate, hn, Except.isOk, Except.toBool]
    · rcases he : lookupS "email" inp with _ | em
      · simp [User.validate, hn, he, Except.isOk, Except.toBool]
      · rcases hr : lookupS "role" inp with _ | r
        · simp [User.validate, hn, he, hr, Except.isOk, Except.toBool]
        · have hiff := Role.ofString_isSome_iff r
          rcases hro : Role.ofString? r with _ | rl
          · rw [hro] at hiff
            simp only [Option.isSome_none, Bool.false_eq_true, false_iff] at hiff
            simp [User.validate, hn, he, hr, hro, Except.isOk, Except.toBool, hiff]
          · rw [hro] at hiff
            simp only [Option.isSome_some, true_iff] at hiff
            simp [User.validate, hn, he, hr, hro, Except.isOk, Except.toBool, hiff]
  · rcases hn : lookupS "name" inp with _ | nm <;>
      rcases hc : lookupS "created_by" inp with _ | cb <;>
      simp [Group.validate, hn, hc, Except.isOk, Except.toBool]
  · rcases hg : lookupS "group_id" inp with _ | g <;>
      rcases ha : lookupS "author_id" inp with _ | a <;>
      rcases hc : lookupS "content" inp with _ | c <;>
      simp [Post.validate, hg, ha, hc, Except.isOk, Except.toBool]
  · rcases hp : lookupS "post_id" inp with _ | p <;>
      rcases ha : lookupS "author_id" inp with _ | a <;>
      rcases hc : lookupS "content" inp with _ | c <;>
      simp [Comment.validate, hp, ha, hc, Except.isOk, Except.toBool]
  · rcases hp : lookupS "post_id" inp with _ | p <;>
      rcases hu : lookupS "user_id" inp with _ | u <;>
      simp [Like.validate, hp, hu, Except.isOk, Except.toBool]

/-- C7 witness: construction evaluated concretely — a User input with the
required fields present and role defaulted validates, and the same input
with a role outside the enumeration is rejected. -/
theorem entity_validation_witness :
    (User.validate [("name", "A"), ("email", "a@x.com")]).isOk = true ∧
    (User.validate
      [("name", "A"), ("email", "a@x.com"), ("role", "boss")]).isOk = false := by
  constructor
  · exact (entity_validation [("name", "A"), ("email", "a@x.com")]).1.mpr
      ⟨rfl, rfl, fun r hr => Option.noConfusion hr⟩
  · cases hv : (User.validate
        [("name", "A"), ("email", "a@x.com"), ("role", "boss")]).isOk
    · rfl
    · exfalso
      have hmem := ((entity_validation
        [("name", "A"), ("email", "a@x.com"), ("role", "boss")]).1.mp hv).2.2
        "boss" rfl
      rcases hmem with h | h | h <;> simp at h

/-- An HTTPException raised by a handler: status code and detail message. -/
structure HTTPError where
  status : Nat
  detail : String
deriving DecidableEq, Repr

/-- Modelled from the spec: the document store state behind the Document
Access Layer. database.py, which implements the layer, is not part of the
repository snapshot; per spec section 4.2 and 6 the store holds named
collections of records and yields a process-unique identifier per inserted
record, modelled by a counter rendered as the ObjectId hex string. -/
structure Store where
  colls : List (String × List Doc)
  nextOid : Nat
deriving DecidableEq, Repr

/-- The store of a fresh deployment: no collections, first identifier 0. -/
def Store.empty : Store := ⟨[], 0⟩

/-- The records of a named collection (a collection never written is empty). -/
def collGet : List (String × List Doc) → String → List Doc
  | [], _ => []
  | (n, docs) :: t, c => if n = c then docs else collGet t c

/-- Append a record to a named collection, creating the collection on first
write. -/
def collPut : List (String × List Doc) → String → Doc → List (String × List Doc)
  | [], c, d => [(c, [d])]
  | (n, docs) :: t, c, d =>
    if n = c then (n, docs ++ [d]) :: t else (n, docs) :: collPut t c d

/-- The hex-string rendering of the n-th generated ObjectId. -/
def oidString (n : Nat) : String := toString n

/-- Modelled from the spec (section 4.2): `create_document` serializes the
entity's fields to a storage record, inserts it into the named collection,
and returns the newly generated unique identifier as a string; the store
brands the record with an ObjectId `_id`. -/
def create_document (s : Store) (c : String) (fields : Doc) : Store × String :=
  let oid := oidString s.nextOid
  (⟨collPut s.colls c (("_id", Value.objectId oid) :: fields), s.nextOid + 1⟩, oid)

/-- A record matches an exact-match filter when every filter binding is a
field of the record holding exactly that value. -/
def docMatches (f : Doc) (d : Doc) : Bool :=
  f.all (fun kv => lookupF kv.1 d == some kv.2)

/-- Modelled from the spec (section 4.2): `get_documents` returns up to
`limit` records of the named collection matching the exact-match filter,
in storage order; an empty filter matches all records; zero matches yield
the empty sequence, not an error. -/
def get_documents (s : Store) (c : String) (f : Doc) (limit : Nat) : List Doc :=
  ((collGet s.colls c).filter (docMatches f)).take limit

/-- Serialization of a User to its storage record (the four declared model
fields; pydantic never serializes fields the model does not declare). -/
def User.toDoc (u : User) : Doc :=
  [("name", Value.str u.name), ("email", Value.str u.email),
   ("avatar_url", match u.avatar_url with | none => Value.null | some a => Value.str a),
   ("role", Value.str u.role.asString)]

/-- Serialization of a Group to its storage record. -/
def Group.toDoc (g : Group) : Doc :=
  [("name", Value.str g.name),
   ("description", match g.description with | none => Value.null | some d => Value.str d),
   ("created_by", Value.str g.created_by)]

/-- Serialization of a Post to its storage record. -/
def Post.toDoc (p : Post) : Doc :=
  [("group_id", Value.str p.group_id), ("author_id", Value.str p.author_id),
   ("content", Value.str p.content)]

/-- Serialization of a Comment to its storage record. -/
def Comment.toDoc (c : Comment) : Doc :=
  [("post_id", Value.str c.post_id), ("author_id", Value.str c.author_id),
   ("content", Value.str c.content)]

/-- Serialization of a Like to its storage record. -/
def Like.toDoc (l : Like) : Doc :=
  [("post_id", Value.str l.post_id), ("user_id", Value.str l.user_id)]

/-- main.py AuthInfo (lines 71-73). -/
structure AuthInfo where
  user_id : Option String
  role : String
deriving DecidableEq, Repr

/-- Python truthiness of the Optional[str] role argument: None and the empty
string are falsy. -/
def pyTruthy : Option String → Bool
  | none => false
  | some s => s ≠ ""

/-- Python `role in ["user", "moderator", "admin"]` for Optional[str]. -/
def roleListed : Option String → Bool
  | none => false
  | some r => r == "user" || r == "moderator" || r == "admin"

/-- main.py get_auth (lines 76-87): the returned dependency reads nothing
from the request; it builds AuthInfo(role="user") and raises 403 only when
the role argument fixed at route definition is truthy and not in the
enumerated list; for listed roles the moderator/admin branch is `pass`. -/
def get_auth_dep (role : Option String) : Except HTTPError AuthInfo :=
  if pyTruthy role && !(roleListed role) then Except.error ⟨403, "Invalid role"⟩
  else Except.ok ⟨none, "user"⟩

/-- main.py register (lines 99-109): reject a duplicate email (first-match
lookup with cap 1), hash the password, construct the User — passing the
hash as a `password_hash` keyword that the model does not declare, so
validation drops it — persist, re-read by `_id`, and return the sanitized
record (with a hand-built fallback if the re-read finds nothing). The
SHA-256 hex digest is an uninterpreted parameter `sha256hex`. -/
def register (sha256hex : String → String) (s : Store)
    (name email password : String) : Store × Except HTTPError Doc :=
  let existing := get_documents s "user" [("email", Value.str email)] 1
  if existing ≠ [] then (s, Except.error ⟨400, "Email already registered"⟩)
  else
    let password_hash := sha256hex password
    match User.validate [("name", name), ("email", email), ("role", "user"),
        ("password_hash", password_hash)] with
    | Except.error _ => (s, Except.error ⟨500, "Internal Server Error"⟩)
    | Except.ok user =>
      let res := create_document s "user" (User.toDoc user)
      let created := get_documents res.1 "user"
        [("_id", Value.objectId res.2)] 1
      match created with
      | c :: _ => (res.1, Except.ok (to_public c))
      | [] => (res.1, Except.ok
          [("id", Value.str res.2), ("name", Value.str name),
           ("email", Value.str email), ("role", Value.str "user")])

/-- main.py login (lines 111-120): look the user up by email (cap 1); 401
when none is found or when the stored `password_hash` field does not equal
the digest of the supplied password (`u.get` yields None when the field is
absent, which never equals a digest string); on success return the
sanitized record. -/
def login (sha256hex : String → String) (s : Store)
    (email password : String) : Except HTTPError Doc :=
  match get_documents s "user" [("email", Value.str email)] 1 with
  | [] => Except.error ⟨401, "Invalid credentials"⟩
  | u :: _ =>
    if lookupF "password_hash" u = some (Value.str (sha256hex password)) then
      Except.ok (to_public u)
    else Except.error ⟨401, "Invalid credentials"⟩

/-- main.py create_group (lines 134-137): run the moderator-gated auth
dependency, then persist the group and return its identifier. -/
def create_group (s : Store) (g : Group) : Store × Except HTTPError Doc :=
  match get_auth_dep (some "moderator") with
  | Except.error e => (s, Except.error e)
  | Except.ok _ =>
    let res := create_document s "group" (Group.toDoc g)
    (res.1, Except.ok [("id", Value.str res.2)])

/-- main.py create_post (lines 145-150): reject a body whose group_id
differs from the path parameter before any persistence. -/
def create_post (s : Store) (group_id : String) (p : Post) :
    Store × Except HTTPError Doc :=
  if group_id ≠ p.group_id then (s, Except.error ⟨400, "Group ID mismatch"⟩)
  else
    let res := create_document s "post" p.toDoc
    (res.1, Except.ok [("id", Value.str res.2)])

/-- main.py create_comment (lines 158-163): reject a body whose post_id
differs from the path parameter before any persistence. -/
def create_comment (s : Store) (post_id : String) (c : Comment) :
    Store × Except HTTPError Doc :=
  if post_id ≠ c.post_id then (s, Except.error ⟨400, "Post ID mismatch"⟩)
  else
    let res := create_document s "comment" c.toDoc
    (res.1, Except.ok [("id", Value.str res.2)])

/-- main.py like_post (lines 171-176): reject a body whose post_id differs
from the path parameter before any persistence. -/
def like_post (s : Store) (post_id : String) (l : Like) :
    Store × Except HTTPError Doc :=
  if post_id ≠ l.post_id then (s, Except.error ⟨400, "Post ID mismatch"⟩)
  else
    let res := create_document s "like" l.toDoc
    (res.1, Except.ok [("id", Value.str res.2)])

/-- main.py list_users (lines 128-131): query with the caller-supplied or
default cap (50) and sanitize every record. -/
def list_users (s : Store) (limit : Nat) : List Doc :=
  (get_documents s "user" [] limit).map to_public

/-- main.py list_groups (lines 139-142), default cap 50. -/
def list_groups (s : Store) (limit : Nat) : List Doc :=
  (get_documents s "group" [] limit).map to_public

/-- main.py list_posts (lines 152-155), default cap 50. -/
def list_posts (s : Store) (group_id : String) (limit : Nat) : List Doc :=
  (get_documents s "post" [("group_id", Value.str group_id)] limit).map to_public

/-- main.py list_comments (lines 165-168), default cap 50. -/
def list_comments (s : Store) (post_id : String) (limit : Nat) : List Doc :=
  (get_documents s "comment" [("post_id", Value.str post_id)] limit).map to_public

/-- main.py list_likes (lines 178-181), default cap 100. -/
def list_likes (s : Store) (post_id : String) (limit : Nat) : List Doc :=
  (get_documents s "like" [("post_id", Value.str post_id)] limit).map to_public

/-- Helper for the duplicate-email guard: whenever some stored user record
carries the requested email, register rejects with 400 and returns the
store unchanged. -/
theorem register_duplicate (sha256hex : String → String) (s : Store)
    (name email password : String)
    (h : ∃ d, d ∈ collGet s.colls "user" ∧
      lookupF "email" d = some (Value.str email)) :
    register sha256hex s name email password =
      (s, Except.error ⟨400, "Email already registered"⟩) := by
  obtain ⟨d, hd, hlk⟩ := h
  have hmem : d ∈ (collGet s.colls "user").filter
      (docMatches [("email", Value.str email)]) := by
    refine List.mem_filter.mpr ⟨hd, ?_⟩
    simp [docMatches, hlk]
  have hne : get_documents s "user" [("email", Value.str email)] 1 ≠ [] := by
    unfold get_documents
    rcases hq : (collGet s.colls "user").filter
        (docMatches [("email", Value.str email)]) with _ | ⟨x, xs⟩
    · rw [hq] at hmem
      exact absurd hmem (List.not_mem_nil _)
    · simp
  simp only [register]
  rw [if_pos hne]

/-- The state produced by a successful registration on the fresh store. -/
theorem register_fresh_state (sha256hex : String → String)
    (name email password : String) :
    (register sha256hex Store.empty name email password).1 =
      ⟨[("user", [("_id", Value.objectId "0") ::
        User.toDoc ⟨name, email, none, Role.user⟩])], 1⟩ := rfl

/-- C3: if some existing User record already carries the requested email
(exact match), register fails with 400 "Email already registered" and the
store is unchanged; in particular registering the same email twice on a
fresh deployment fails the second time. -/
theorem duplicate_email_guard :
    (∀ (sha256hex : String → String) (s : Store)
        (name email password : String),
      (∃ d, d ∈ collGet s.colls "user" ∧
        lookupF "email" d = some (Value.str email)) →
      register sha256hex s name email password =
        (s, Except.error ⟨400, "Email already registered"⟩)) ∧
    (∀ (sha256hex : String → String)
        (name email password name2 password2 : String),
      register sha256hex (register sha256hex Store.empty name email password).1
          name2 email password2 =
        ((register sha256hex Store.empty name email password).1,
         Except.error ⟨400, "Email already registered"⟩)) := by
  refine ⟨register_duplicate, ?_⟩
  intro sha256hex name email password name2 password2
  rw [register_fresh_state sha256hex name email password]
  exact register_duplicate sha256hex _ name2 email password2
    ⟨("_id", Value.objectId "0") :: User.toDoc ⟨name, email, none, Role.user⟩,
     List.mem_cons_self _ _, rfl⟩

/-- C3 witness: a concrete store already holding a user with the email
rejects a registration for that email. -/
theorem duplicate_email_guard_witness :
    register (fun x => x)
        ⟨[("user", [[("email", Value.str "a@x.com")]])], 3⟩
        "N" "a@x.com" "pw" =
      (⟨[("user", [[("email", Value.str "a@x.com")]])], 3⟩,
       Except.error ⟨400, "Email already registered"⟩) :=
  duplicate_email_guard.1 (fun x => x) _ "N" "a@x.com" "pw"
    ⟨[("email", Value.str "a@x.com")], List.mem_cons_self _ _, rfl⟩

/-- C4: each creation handler rejects a body whose foreign-key field differs
from the path parameter with 400 and leaves the store untouched (the
Document Access Layer is never invoked on that path). -/
theorem fk_mismatch_guard :
    (∀ (s : Store) (group_id : String) (p : Post), group_id ≠ p.group_id →
      create_post s group_id p =
        (s, Except.error ⟨400, "Group ID mismatch"⟩)) ∧
    (∀ (s : Store) (post_id : String) (c : Comment), post_id ≠ c.post_id →
      create_comment s post_id c =
        (s, Except.error ⟨400, "Post ID mismatch"⟩)) ∧
    (∀ (s : Store) (post_id : String) (l : Like), post_id ≠ l.post_id →
      like_post s post_id l =
        (s, Except.error ⟨400, "Post ID mismatch"⟩)) := by
  refine ⟨?_, ?_, ?_⟩
  · intro s gid p h
    simp only [create_post]
    rw [if_pos h]
  · intro s pid c h
    simp only [create_comment]
    rw [if_pos h]
  · intro s pid l h
    simp only [like_post]
    rw [if_pos h]

/-- C4 witness: concrete mismatching bodies are rejected by all three
handlers with the store unchanged. -/
theorem fk_mismatch_guard_witness :
    create_post Store.empty "g1" ⟨"g2", "a", "c"⟩ =
      (Store.empty, Except.error ⟨400, "Group ID mismatch"⟩) ∧
    create_comment Store.empty "p1" ⟨"p2", "a", "c"⟩ =
      (Store.empty, Except.error ⟨400, "Post ID mismatch"⟩) ∧
    like_post Store.empty "p1" ⟨"p2", "u"⟩ =
      (Store.empty, Except.error ⟨400, "Post ID mismatch"⟩) :=
  ⟨fk_mismatch_guard.1 _ _ _ (by decide),
   fk_mismatch_guard.2.1 _ _ _ (by decide),
   fk_mismatch_guard.2.2 _ _ _ (by decide)⟩

/-- C8: `get_documents` never returns more than `limit` records, and every
read handler passes its cap through, so no response array exceeds the cap. -/
theorem result_cap :
    (∀ (s : Store) (c : String) (f : Doc) (limit : Nat),
      (get_documents s c f limit).length ≤ limit) ∧
    (∀ (s : Store) (limit : Nat), (list_users s limit).length ≤ limit) ∧
    (∀ (s : Store) (limit : Nat), (list_groups s limit).length ≤ limit) ∧
    (∀ (s : Store) (group_id : String) (limit : Nat),
      (list_posts s group_id limit).length ≤ limit) ∧
    (∀ (s : Store) (post_id : String) (limit : Nat),
      (list_comments s post_id limit).length ≤ limit) ∧
    (∀ (s : Store) (post_id : String) (limit : Nat),
      (list_likes s post_id limit).length ≤ limit) := by
  have hbase : ∀ (s : Store) (c : String) (f : Doc) (limit : Nat),
      (get_documents s c f limit).length ≤ limit := by
    intro s c f limit
    unfold get_documents
    exact List.length_take_le _ _
  refine ⟨hbase, ?_, ?_, ?_, ?_, ?_⟩
  · intro s limit
    simpa [list_users] using hbase s "user" [] limit
  · intro s limit
    simpa [list_groups] using hbase s "group" [] limit
  · intro s gid limit
    simpa [list_posts] using hbase s "post" [("group_id", Value.str gid)] limit
  · intro s pid limit
    simpa [list_comments] using hbase s "comment" [("post_id", Value.str pid)] limit
  · intro s pid limit
    simpa [list_likes] using hbase s "like" [("post_id", Value.str pid)] limit

/-- Helper: every login failure carries exactly status 401 and the generic
"Invalid credentials" message, whatever the cause. -/
theorem login_error_detail (sha256hex : String → String) (s : Store)
    (email password : String) (err : HTTPError)
    (h : login sha256hex s email password = Except.error err) :
    err = ⟨401, "Invalid credentials"⟩ := by
  unfold login at h
  rcases hq : get_documents s "user" [("email", Value.str email)] 1 with _ | ⟨u, us⟩
  · rw [hq] at h
    exact (Except.error.inj h).symm
  · rw [hq] at h
    have h' : (if lookupF "password_hash" u =
          some (Value.str (sha256hex password)) then
        Except.ok (to_public u)
      else (Except.error ⟨401, "Invalid credentials"⟩ :
        Except HTTPError Doc)) = Except.error err := h
    by_cases hpw : lookupF "password_hash" u =
        some (Value.str (sha256hex password))
    · rw [if_pos hpw] at h'
      exact Except.noConfusion h'
    · rw [if_neg hpw] at h'
      exact (Except.error.inj h').symm

/-- C5: login fails with 401 "Invalid credentials" both when no user has the
email and when the stored digest differs from the digest of the supplied
password, and any two login failures carry the identical status and message,
revealing nothing about which input was wrong. -/
theorem login_uniform_failure (sha256hex : String → String) :
    (∀ (s : Store) (email password : String),
      get_documents s "user" [("email", Value.str email)] 1 = [] →
      login sha256hex s email password =
        Except.error ⟨401, "Invalid credentials"⟩) ∧
    (∀ (s : Store) (email password : String) (u : Doc) (us : List Doc),
      get_documents s "user" [("email", Value.str email)] 1 = u :: us →
      lookupF "password_hash" u ≠ some (Value.str (sha256hex password)) →
      login sha256hex s email password =
        Except.error ⟨401, "Invalid credentials"⟩) ∧
    (∀ (s s2 : Store) (e p e2 p2 : String) (err err2 : HTTPError),
      login sha256hex s e p = Except.error err →
      login sha256hex s2 e2 p2 = Except.error err2 → err = err2) := by
  refine ⟨?_, ?_, ?_⟩
  · intro s email password h
    unfold login
    rw [h]
  · intro s email password u us h hpw
    unfold login
    rw [h]
    exact if_neg hpw
  · intro s s2 e p e2 p2 err err2 h1 h2
    rw [login_error_detail _ _ _ _ _ h1, login_error_detail _ _ _ _ _ h2]

/-- C5 witness: both failure causes evaluated concretely — unknown email on
the fresh store, and wrong password against a stored digest — yield the
identical 401 response. -/
theorem login_uniform_failure_witness :
    login (fun x => x) Store.empty "a@x.com" "p" =
      Except.error ⟨401, "Invalid credentials"⟩ ∧
    login (fun x => x)
        ⟨[("user", [[("email", Value.str "a@x.com"),
           ("password_hash", Value.str "OTHER")]])], 7⟩ "a@x.com" "p" =
      Except.error ⟨401, "Invalid credentials"⟩ :=
  ⟨(login_uniform_failure (fun x => x)).1 Store.empty "a@x.com" "p" rfl,
   (login_uniform_failure (fun x => x)).2.1 _ "a@x.com" "p"
     [("email", Value.str "a@x.com"), ("password_hash", Value.str "OTHER")]
     [] rfl (by decide)⟩

/-- C9: the moderator gate on group creation is a no-op: the dependency
built by get_auth("moderator") always returns AuthInfo(role="user") and its
403 branch is unreachable for that argument, so create_group always reaches
the Document Access Layer and persists the group. -/
theorem moderator_gate_noop :
    get_auth_dep (some "moderator") = Except.ok ⟨none, "user"⟩ ∧
    ∀ (s : Store) (g : Group),
      (create_group s g).2 =
        Except.ok [("id", Value.str (oidString s.nextOid))] ∧
      (create_group s g).1.colls = collPut s.colls "group"
        (("_id", Value.objectId (oidString s.nextOid)) :: g.toDoc) :=
  ⟨rfl, fun _ _ => ⟨rfl, rfl⟩⟩

/-- C1 (code bug): on the fresh store, register("A", "a@x.com", "p")
persists a user record WITHOUT any password_hash field — the digest passed
to the User constructor is dropped because schemas.py declares no such
field — so the subsequent login with the same, correct password fails with
401 instead of succeeding. The stored record and both responses are
independent of the digest function. -/
theorem register_drops_credential (sha256hex : String → String) :
    register sha256hex Store.empty "A" "a@x.com" "p" =
      (⟨[("user",
          [[("_id", Value.objectId "0"), ("name", Value.str "A"),
            ("email", Value.str "a@x.com"), ("avatar_url", Value.null),
            ("role", Value.str "user")]])], 1⟩,
       Except.ok
         [("name", Value.str "A"), ("email", Value.str "a@x.com"),
          ("avatar_url", Value.null), ("role", Value.str "user"),
          ("id", Value.str "0")]) ∧
    lookupF "password_hash"
      [("_id", Value.objectId "0"), ("name", Value.str "A"),
       ("email", Value.str "a@x.com"), ("avatar_url", Value.null),
       ("role", Value.str "user")] = none ∧
    login sha256hex (register sha256hex Store.empty "A" "a@x.com" "p").1
      "a@x.com" "p" = Except.error ⟨401, "Invalid credentials"⟩ :=
  ⟨rfl, rfl, rfl⟩

end CampusSocial
